import Mathlib

/-!
Shallow embedding of `src/app.py` (network-traffic anomaly dashboard).

The program has two core functions:

* `load_data(samples)` (lines 14-30): seeds numpy with 42, builds a pandas
  DataFrame with columns Timestamp (a `date_range` starting at `datetime.now()`
  with one-minute frequency), IP_Address (uniform choice from a 4-element pool),
  Bytes_Sent / Bytes_Received (log-normal draws truncated to int), Request_Count
  (Poisson draws) and Port (uniform choice from a 4-element pool).  Any exception
  is caught and `None` is returned.  The function is wrapped in `st.cache_data`,
  so repeated calls with the same argument return the cached table.

* `detect_anomalies(data, contamination)` (lines 33-52): selects the three
  feature columns, fits an `IsolationForest(n_estimators=100, contamination,
  random_state=42, n_jobs=-1)`, assigns `data['Anomaly_Score'] =
  model.fit_predict(...)` and `data['Confidence'] = model.decision_function(...)`
  in place, and returns `data`; any exception is caught and `data` is returned
  as-is (with whatever columns were already assigned).

The embedding models a pandas DataFrame column-wise (each column an optional
list), the seeded numpy stream as an abstract stream of draws fixed by the seed,
and the IsolationForest library behaviour at the interface the program uses:
`score_samples` is an abstract per-row score function fixed by the seed; sklearn
computes `offset_` as the numpy linear-interpolation percentile of the training
scores at `100 * contamination`, `decision_function = score_samples - offset_`,
and `fit_predict` labels a row `-1` exactly when its decision value is negative,
`+1` otherwise.  Fallible library steps (fit/predict, decision_function,
generation) are modelled by explicit success flags, and the in-place mutation of
`detect_anomalies` by a heap of references.
-/

namespace ThreatDetect

/-- Feature triple (Bytes_Sent, Bytes_Received, Request_Count) of one row. -/
abbrev Feat := ℤ × ℤ × ℤ

/-- Column-wise model of the pandas DataFrame used by the program.  A column
that has not been created is `none`; `data['col'] = v` sets it to `some v`. -/
structure DataFrame where
  timestamp : Option (List ℤ)
  ipAddress : Option (List String)
  bytesSent : Option (List ℤ)
  bytesReceived : Option (List ℤ)
  requestCount : Option (List ℤ)
  port : Option (List ℕ)
  anomalyScore : Option (List ℤ)
  confidence : Option (List ℚ)
  deriving DecidableEq

/-- The fixed IP pool of line 21. -/
def ipPool : List String := ["192.168.1.1", "192.168.1.2", "192.168.1.3", "192.168.1.4"]

/-- The fixed port pool of line 25. -/
def portPool : List ℕ := [80, 443, 22, 3389]

/-- Abstract model of the numpy generator seeded with 42 (line 18).  Because
`np.random.seed(42)` runs at the start of every `load_data` call, the stream of
draws is the same on every call; it is therefore a fixed parameter.  Log-normal
draws are strictly positive reals (modelled as rationals with a positivity
invariant); Poisson draws are naturals; `choice` draws are indices into the
4-element pools. -/
structure NumpyStream where
  ipIdx : ℕ → Fin 4
  logSent : ℕ → ℚ
  logRecv : ℕ → ℚ
  poisson : ℕ → ℕ
  portIdx : ℕ → Fin 4
  logSent_pos : ∀ i, 0 < logSent i
  logRecv_pos : ∀ i, 0 < logRecv i

/-- Body of `load_data` (lines 18-27).  `now` is the value of `datetime.now()`
in seconds; `pd.date_range(start=now, periods=samples, freq='T')` steps by one
minute (60 s).  `.astype(int)` truncates the positive log-normal draw toward
zero, i.e. takes its floor. -/
def load_data_body (g : NumpyStream) (now : ℤ) (samples : ℕ) : DataFrame :=
  { timestamp := some ((List.range samples).map fun (i : ℕ) => now + 60 * (i : ℤ)),
    ipAddress := some ((List.range samples).map fun i => ipPool.getD (g.ipIdx i).val ""),
    bytesSent := some ((List.range samples).map fun i => ⌊g.logSent i⌋),
    bytesReceived := some ((List.range samples).map fun i => ⌊g.logRecv i⌋),
    requestCount := some ((List.range samples).map fun i => (g.poisson i : ℤ)),
    port := some ((List.range samples).map fun i => portPool.getD (g.portIdx i).val 0),
    anomalyScore := none,
    confidence := none }

/-- `load_data` with its try/except (lines 17-30): if construction fails
(`genOk = false`) the error is surfaced and `None` is returned. -/
def load_data (g : NumpyStream) (now : ℤ) (genOk : Bool) (samples : ℕ) :
    Option DataFrame :=
  if genOk then some (load_data_body g now samples) else none

/-- The `st.cache_data` wrapper on `load_data` (line 14): the cache maps the
`samples` argument to the stored result; a hit returns the cached value without
re-running the body. -/
def cachedLoadData (g : NumpyStream) (genOk : Bool)
    (cache : List (ℕ × Option DataFrame)) (now : ℤ) (samples : ℕ) :
    Option DataFrame × List (ℕ × Option DataFrame) :=
  match cache.lookup samples with
  | some v => (v, cache)
  | none => (load_data g now genOk samples, (samples, load_data g now genOk samples) :: cache)

/-- Row-wise zip of the three feature columns. -/
def featureTriples : List ℤ → List ℤ → List ℤ → List Feat
  | a :: as, b :: bs, c :: cs => (a, b, c) :: featureTriples as bs cs
  | _, _, _ => []

/-- `data[features]` for `features = ['Bytes_Sent', 'Bytes_Received',
'Request_Count']` (lines 36, 45): fails (KeyError) when one of the three
columns is missing. -/
def getFeatures (d : DataFrame) : Option (List Feat) :=
  match d.bytesSent, d.bytesReceived, d.requestCount with
  | some bs, some br, some rc => some (featureTriples bs br rc)
  | _, _, _ => none

/-- Linear interpolation at fractional position `x` into the sorted list `s`,
as numpy's default percentile method computes it: with `i = ⌊x⌋`,
`s[i] + (x - i) * (s[i+1] - s[i])`.  For `x ∈ [0, length - 1]` the indices are
in range (at `x = length - 1` the fractional part is zero, so the out-of-range
default is never weighted). -/
def interpAt (s : List ℚ) (x : ℚ) : ℚ :=
  let lo := s.getD (⌊x⌋).toNat 0
  let hi := s.getD ((⌊x⌋).toNat + 1) lo
  lo + (x - ⌊x⌋) * (hi - lo)

/-- `np.percentile(a, q)` with the default linear interpolation: sort `a`
ascending and interpolate at position `(len(a) - 1) * q / 100`. -/
def npPercentile (a : List ℚ) (q : ℚ) : ℚ :=
  interpAt (a.insertionSort (· ≤ ·)) (((a.length : ℚ) - 1) * q / 100)

/-- `model.score_samples` on the feature matrix: the per-row anomaly score of
the forest fitted with the fixed seed 42, abstracted as a function of the
feature triple. -/
def score_samples (scoreFn : Feat → ℚ) (xs : List Feat) : List ℚ :=
  xs.map scoreFn

/-- sklearn's `offset_` after `fit`: the percentile of the training scores at
`100.0 * contamination`. -/
def offsetOf (scoreFn : Feat → ℚ) (xs : List Feat) (c : ℚ) : ℚ :=
  npPercentile (score_samples scoreFn xs) (100 * c)

/-- `model.decision_function` (line 48): `score_samples - offset_`. -/
def decision_function (scoreFn : Feat → ℚ) (xs : List Feat) (c : ℚ) : List ℚ :=
  (score_samples scoreFn xs).map fun s => s - offsetOf scoreFn xs c

/-- `model.fit_predict` (line 46): a row is labelled `-1` exactly when its
decision value is negative, `+1` otherwise. -/
def predictLabels (scoreFn : Feat → ℚ) (xs : List Feat) (c : ℚ) : List ℤ :=
  (decision_function scoreFn xs c).map fun d => if d < 0 then -1 else 1

/-- `detect_anomalies` (lines 33-52).  `fitOk` models whether
`model.fit_predict` raises, `dfOk` whether `model.decision_function` raises;
a missing feature column makes the column selection itself raise.  The except
branch returns `data` as already mutated in place: a failure before any
assignment returns the input unchanged, while a `decision_function` failure
returns the table with `Anomaly_Score` already assigned (line 47) but without
`Confidence`. -/
def detect_anomalies (scoreFn : Feat → ℚ) (fitOk dfOk : Bool)
    (data : DataFrame) (c : ℚ) : DataFrame :=
  match getFeatures data with
  | none => data
  | some xs =>
    if fitOk then
      let data1 := { data with anomalyScore := some (predictLabels scoreFn xs c) }
      if dfOk then
        { data1 with confidence := some (decision_function scoreFn xs c) }
      else data1
    else data

/-- Number of rows labelled Anomalous (`Anomaly_Score == -1`), as in line 100. -/
def anomalyCount (d : DataFrame) : ℕ :=
  match d.anomalyScore with
  | some l => l.count (-1)
  | none => 0

/-- Aggregate of the per-tree contributions of the ensemble for one row:
the sum over the trees of the fitted forest.  sklearn's anomaly score is a
fixed monotone transform of this sum; the transform is abstracted below. -/
def treeAgg (trees : List (Feat → ℚ)) (x : Feat) : ℚ :=
  (trees.map fun t => t x).sum

/-- Sequential forest score: a post-transform `f` applied to the aggregate of
all trees. -/
def forestScore (f : ℚ → ℚ) (trees : List (Feat → ℚ)) (x : Feat) : ℚ :=
  f (treeAgg trees x)

/-- Parallel forest score with `n_jobs` chunking (line 41): the trees are split
into chunks, each compute unit aggregates its chunk, and the partial aggregates
are summed before the post-transform. -/
def forestScorePar (f : ℚ → ℚ) (chunks : List (List (Feat → ℚ))) (x : Feat) : ℚ :=
  f ((chunks.map fun ts => treeAgg ts x).sum)

/-- `detect_anomalies` acting on a heap of DataFrame references: the Python
function mutates its argument in place (lines 47-48) and returns the same
object (line 49). -/
def detect_anomalies_ref (scoreFn : Feat → ℚ) (fitOk dfOk : Bool)
    (heap : ℕ → DataFrame) (r : ℕ) (c : ℚ) : (ℕ → DataFrame) × ℕ :=
  (Function.update heap r (detect_anomalies scoreFn fitOk dfOk (heap r) c), r)

/-- What one dashboard cycle renders. -/
inductive CycleView where
  | skipped : CycleView
  | shown : DataFrame → CycleView
  deriving DecidableEq

/-- The data-loading and scoring steps of `main` (lines 94-99): if `load_data`
returns `None` the cycle returns early and renders nothing; otherwise the
(in-place scored) table is rendered. -/
def mainCycle (g : NumpyStream) (now : ℤ) (genOk fitOk dfOk : Bool)
    (scoreFn : Feat → ℚ) (sampleSize : ℕ) (contamination : ℚ) : CycleView :=
  match load_data g now genOk sampleSize with
  | none => CycleView.skipped
  | some data => CycleView.shown (detect_anomalies scoreFn fitOk dfOk data contamination)

/-- Length of an optional column (0 when absent). -/
def optLen {α : Type} (o : Option (List α)) : ℕ :=
  match o with
  | some l => l.length
  | none => 0

/-- A present column all of whose entries satisfy `p` (false when absent). -/
def colOK {α : Type} (p : α → Bool) (o : Option (List α)) : Bool :=
  match o with
  | some l => l.all p
  | none => false

/-- A concrete stream instance, used to evaluate the embedding on concrete
inputs. -/
def constStream : NumpyStream where
  ipIdx := fun _ => 0
  logSent := fun _ => 3 / 2
  logRecv := fun _ => 5 / 2
  poisson := fun _ => 25
  portIdx := fun _ => 1
  logSent_pos := fun _ => by norm_num
  logRecv_pos := fun _ => by norm_num

/-- A concrete four-row table with all base columns present. -/
def sampleDF : DataFrame :=
  { timestamp := some [0, 60, 120, 180],
    ipAddress := some ["192.168.1.1", "192.168.1.2", "192.168.1.1", "192.168.1.3"],
    bytesSent := some [10, 900, 20, 15],
    bytesReceived := some [12, 800, 25, 14],
    requestCount := some [20, 90, 22, 25],
    port := some [80, 443, 22, 80],
    anomalyScore := none,
    confidence := none }

/-- The feature triples of `sampleDF`. -/
def sampleFeats : List Feat := [(10, 12, 20), (900, 800, 90), (20, 25, 22), (15, 14, 25)]

/-- The timestamp column of a DataFrame (empty when absent). -/
def tsCol (d : DataFrame) : List ℤ := d.timestamp.getD []

/-- A table identical to `sampleDF` except that the Bytes_Sent column is
missing, so feature selection fails on it. -/
def noFeatDF : DataFrame := { sampleDF with bytesSent := none }

/-- Two concrete trees, used to instantiate the parallel-evaluation model. -/
def treeA : Feat → ℚ := fun x => (x.1 : ℚ)

/-- A second concrete tree. -/
def treeB : Feat → ℚ := fun x => (x.2.1 : ℚ)

lemma sorted_getD_le (s : List ℚ) (hs : List.Sorted (· ≤ ·) s) {i j : ℕ}
    (hij : i ≤ j) (hj : j < s.length) : s.getD i 0 ≤ s.getD j 0 := by
  rcases eq_or_lt_of_le hij with rfl | hlt
  · exact le_refl _
  · have hi : i < s.length := lt_trans hlt hj
    rw [List.getD_eq_getElem s 0 hi, List.getD_eq_getElem s 0 hj]
    exact List.pairwise_iff_getElem.mp hs i j hi hj hlt

lemma getD_succ_ge (s : List ℚ) (hs : List.Sorted (· ≤ ·) s) (i : ℕ) :
    s.getD i 0 ≤ s.getD (i + 1) (s.getD i 0) := by
  by_cases h : i + 1 < s.length
  · rw [List.getD_eq_getElem s _ h, List.getD_eq_getElem s 0 (Nat.lt_of_succ_lt h)]
    exact List.pairwise_iff_getElem.mp hs i (i + 1) (Nat.lt_of_succ_lt h) h (Nat.lt_succ_self i)
  · rw [List.getD_eq_default _ _ (Nat.le_of_not_lt h)]

lemma interpAt_ge_lo (s : List ℚ) (hs : List.Sorted (· ≤ ·) s) (x : ℚ) :
    s.getD (⌊x⌋).toNat 0 ≤ interpAt s x := by
  have h1 : 0 ≤ x - ⌊x⌋ := sub_nonneg.mpr (Int.floor_le x)
  have h2 := getD_succ_ge s hs (⌊x⌋).toNat
  have h3 : 0 ≤ (x - ⌊x⌋) *
      (s.getD ((⌊x⌋).toNat + 1) (s.getD (⌊x⌋).toNat 0) - s.getD (⌊x⌋).toNat 0) :=
    mul_nonneg h1 (sub_nonneg.mpr h2)
  simp only [interpAt]
  linarith

lemma interpAt_le_hi (s : List ℚ) (hs : List.Sorted (· ≤ ·) s) (x : ℚ) :
    interpAt s x ≤ s.getD ((⌊x⌋).toNat + 1) (s.getD (⌊x⌋).toNat 0) := by
  have h1 : x - ⌊x⌋ ≤ 1 := by
    have := Int.lt_floor_add_one x
    linarith
  have h2 := getD_succ_ge s hs (⌊x⌋).toNat
  have h3 : 0 ≤ (1 - (x - ⌊x⌋)) *
      (s.getD ((⌊x⌋).toNat + 1) (s.getD (⌊x⌋).toNat 0) - s.getD (⌊x⌋).toNat 0) :=
    mul_nonneg (by linarith) (sub_nonneg.mpr h2)
  simp only [interpAt]
  nlinarith

lemma interpAt_mono (s : List ℚ) (hs : List.Sorted (· ≤ ·) s) {x y : ℚ}
    (hx : 0 ≤ x) (hxy : x ≤ y) (hy : y ≤ (s.length : ℚ) - 1) :
    interpAt s x ≤ interpAt s y := by
  have hfx : (((⌊x⌋).toNat : ℤ)) = ⌊x⌋ := Int.toNat_of_nonneg (Int.floor_nonneg.mpr hx)
  have hy0 : 0 ≤ y := le_trans hx hxy
  have hfy : (((⌊y⌋).toNat : ℤ)) = ⌊y⌋ := Int.toNat_of_nonneg (Int.floor_nonneg.mpr hy0)
  have hij : (⌊x⌋).toNat ≤ (⌊y⌋).toNat := Int.toNat_le_toNat (Int.floor_le_floor hxy)
  have hcast : (s.length : ℚ) - 1 = (((s.length : ℤ) - 1 : ℤ) : ℚ) := by push_cast; ring
  have hlen : (⌊y⌋ : ℤ) ≤ (s.length : ℤ) - 1 := by
    have h2 := Int.floor_le_floor hy
    rwa [hcast, Int.floor_intCast] at h2
  have hylt : (⌊y⌋).toNat < s.length := by omega
  rcases eq_or_lt_of_le hij with heq | hlt
  · have hfloor : ⌊x⌋ = ⌊y⌋ := by omega
    have hd := getD_succ_ge s hs (⌊y⌋).toNat
    have hmul := mul_le_mul_of_nonneg_right
      (show x - (⌊y⌋ : ℚ) ≤ y - (⌊y⌋ : ℚ) by linarith)
      (sub_nonneg.mpr hd)
    simp only [interpAt, heq, hfloor]
    linarith
  · have h1 := interpAt_le_hi s hs x
    have h2 := interpAt_ge_lo s hs y
    have h3 : s.getD ((⌊x⌋).toNat + 1) (s.getD (⌊x⌋).toNat 0) ≤ s.getD (⌊y⌋).toNat 0 := by
      have hrange : (⌊x⌋).toNat + 1 < s.length := Nat.lt_of_le_of_lt (Nat.succ_le_of_lt hlt) hylt
      have hmid := sorted_getD_le s hs (Nat.succ_le_of_lt hlt) hylt
      rw [List.getD_eq_getElem s _ hrange]
      rwa [List.getD_eq_getElem s 0 hrange] at hmid
    linarith

lemma npPercentile_mono (a : List ℚ) (ha : a ≠ []) {q1 q2 : ℚ}
    (h0 : 0 ≤ q1) (h12 : q1 ≤ q2) (h100 : q2 ≤ 100) :
    npPercentile a q1 ≤ npPercentile a q2 := by
  unfold npPercentile
  have hs := List.sorted_insertionSort (· ≤ ·) a
  have hlen := List.length_insertionSort (fun x y : ℚ => x ≤ y) a
  have hpos : 0 < a.length := List.length_pos.mpr ha
  have hone : (1 : ℚ) ≤ (a.length : ℚ) := by exact_mod_cast hpos
  have hc : (0 : ℚ) ≤ (a.length : ℚ) - 1 := by linarith
  apply interpAt_mono _ hs
  · exact div_nonneg (mul_nonneg hc h0) (by norm_num)
  · have := mul_le_mul_of_nonneg_left h12 hc
    linarith
  · rw [hlen]
    have := mul_le_mul_of_nonneg_left h100 hc
    linarith

lemma offsetOf_mono (scoreFn : Feat → ℚ) (xs : List Feat) (hne : xs ≠ [])
    {c1 c2 : ℚ} (h0 : 0 < c1) (h12 : c1 ≤ c2) (h2 : c2 ≤ 1 / 2) :
    offsetOf scoreFn xs c1 ≤ offsetOf scoreFn xs c2 := by
  unfold offsetOf
  apply npPercentile_mono
  · intro hcon
    exact hne (by simpa [score_samples] using hcon)
  · linarith
  · linarith
  · linarith

lemma count_labels_eq (ds : List ℚ) :
    (ds.map fun d => if d < 0 then (-1 : ℤ) else 1).count (-1)
      = ds.countP fun d => decide (d < 0) := by
  induction ds with
  | nil => rfl
  | cons d ds ih =>
    by_cases hd : d < 0 <;> simp [List.count_cons, List.countP_cons, hd, ih]

lemma countP_decision_eq (scores : List ℚ) (o : ℚ) :
    ((scores.map fun s => s - o).countP fun d => decide (d < 0))
      = scores.countP fun s => decide (s < o) := by
  induction scores with
  | nil => rfl
  | cons s ss ih => simp [List.countP_cons, ih, sub_neg]

lemma countP_lt_le (l : List ℚ) {o1 o2 : ℚ} (h : o1 ≤ o2) :
    (l.countP fun s => decide (s < o1)) ≤ l.countP fun s => decide (s < o2) := by
  induction l with
  | nil => exact le_refl _
  | cons a l ih =>
    simp only [List.countP_cons]
    by_cases h1 : a < o1
    · have h2 : a < o2 := lt_of_lt_of_le h1 h
      rw [if_pos (decide_eq_true h1), if_pos (decide_eq_true h2)]
      omega
    · rw [if_neg (by simpa using h1)]
      by_cases h2 : a < o2
      · rw [if_pos (decide_eq_true h2)]
        omega
      · rw [if_neg (by simpa using h2)]
        omega

lemma detect_success (scoreFn : Feat → ℚ) (data : DataFrame) (xs : List Feat) (c : ℚ)
    (hxs : getFeatures data = some xs) :
    detect_anomalies scoreFn true true data c =
      { data with anomalyScore := some (predictLabels scoreFn xs c),
                  confidence := some (decision_function scoreFn xs c) } := by
  unfold detect_anomalies
  rw [hxs]
  rfl

/-- Claim C1: for every table containing the three feature columns and any two
contamination values `0 < c1 ≤ c2 ≤ 1/2`, scoring with `c2` labels at least as
many records Anomalous (`Anomaly_Score == -1`) as scoring with `c1`.  The
fitted forest's per-row scores (`scoreFn`) do not depend on `contamination`;
only the percentile offset does, and the percentile is monotone in its
quantile. -/
theorem contamination_monotone (scoreFn : Feat → ℚ) (data : DataFrame) (xs : List Feat)
    (hxs : getFeatures data = some xs) (hne : xs ≠ [])
    (c1 c2 : ℚ) (h0 : 0 < c1) (h12 : c1 ≤ c2) (h2 : c2 ≤ 1 / 2) :
    anomalyCount (detect_anomalies scoreFn true true data c1) ≤
      anomalyCount (detect_anomalies scoreFn true true data c2) := by
  rw [detect_success scoreFn data xs c1 hxs, detect_success scoreFn data xs c2 hxs]
  show (predictLabels scoreFn xs c1).count (-1) ≤ (predictLabels scoreFn xs c2).count (-1)
  unfold predictLabels decision_function
  rw [count_labels_eq, count_labels_eq, countP_decision_eq, countP_decision_eq]
  exact countP_lt_le _ (offsetOf_mono scoreFn xs hne h0 h12 h2)

/-- Witness for C1 at a concrete table and contamination pair. -/
theorem contamination_monotone_witness :
    getFeatures sampleDF = some sampleFeats ∧ sampleFeats ≠ [] ∧
    (0 : ℚ) < 1 / 10 ∧ (1 : ℚ) / 10 ≤ 3 / 10 ∧ (3 : ℚ) / 10 ≤ 1 / 2 ∧
    anomalyCount (detect_anomalies (fun x => (x.1 : ℚ)) true true sampleDF (1 / 10)) ≤
      anomalyCount (detect_anomalies (fun x => (x.1 : ℚ)) true true sampleDF (3 / 10)) :=
  ⟨rfl, by decide, by norm_num, by norm_num, by norm_num,
    contamination_monotone (fun x => (x.1 : ℚ)) sampleDF sampleFeats rfl (by decide)
      (1 / 10) (3 / 10) (by norm_num) (by norm_num) (by norm_num)⟩

/-- Claim C2, counterexample: the claim says a failed scoring never returns a
table with only one of the two result columns populated.  But the except
branch returns `data` as already mutated: if `fit_predict` (line 46) and the
assignment of `Anomaly_Score` (line 47) succeed and only
`model.decision_function` (line 48) raises, the returned table carries
`Anomaly_Score` and no `Confidence`. -/
theorem score_partial_population :
    (detect_anomalies (fun x => (x.1 : ℚ)) true false sampleDF (1 / 10)).anomalyScore.isSome
        = true ∧
      (detect_anomalies (fun x => (x.1 : ℚ)) true false sampleDF (1 / 10)).confidence = none :=
  ⟨rfl, rfl⟩

/-- Claim C2 as amended: if scoring fails before any result column is assigned
— in particular when a required feature column is missing, or when fit/predict
itself fails — the original table is returned unmodified with neither column
added; if only the final decision-score computation fails, the table is
returned with `Anomaly_Score` populated and `Confidence` absent; in every case
the error is caught and the function returns a table rather than crashing. -/
theorem score_failure_modes (scoreFn : Feat → ℚ) (data : DataFrame) (c : ℚ) (dfOk : Bool) :
    (getFeatures data = none → ∀ fitOk, detect_anomalies scoreFn fitOk dfOk data c = data) ∧
    (detect_anomalies scoreFn false dfOk data c = data) ∧
    (∀ xs, getFeatures data = some xs →
      detect_anomalies scoreFn true false data c
        = { data with anomalyScore := some (predictLabels scoreFn xs c) }) := by
  refine ⟨?_, ?_, ?_⟩
  · intro h fitOk
    simp [detect_anomalies, h]
  · cases hg : getFeatures data <;> simp [detect_anomalies, hg]
  · intro xs h
    simp [detect_anomalies, h]

/-- Witness for the amended C2: a table missing Bytes_Sent is returned
unmodified. -/
theorem score_failure_modes_witness :
    getFeatures noFeatDF = none ∧
    detect_anomalies (fun x => (x.1 : ℚ)) true true noFeatDF (1 / 10) = noFeatDF :=
  ⟨rfl, (score_failure_modes (fun x => (x.1 : ℚ)) noFeatDF (1 / 10) true).1 rfl true⟩

/-- Claim C3: two calls to the generator with the same `sample_size` produce
identical tables field-for-field, timestamp included.  The second call hits
the `st.cache_data` cache keyed by `sample_size`, so it returns the stored
table even though `datetime.now()` differs; the random columns are in any case
identical because the seed is reset to 42 on every call. -/
theorem generate_deterministic (g : NumpyStream) (genOk : Bool)
    (now1 now2 : ℤ) (samples : ℕ) :
    (cachedLoadData g genOk ((cachedLoadData g genOk [] now1 samples).2) now2 samples).1 =
      (cachedLoadData g genOk [] now1 samples).1 := by
  simp [cachedLoadData, List.lookup]

/-- Claim C4: the generated table has exactly `samples` rows; Bytes_Sent,
Bytes_Received and Request_Count are non-negative in every row; IP_Address and
Port are drawn from the fixed 4-element pools. -/
theorem generate_shape (g : NumpyStream) (now : ℤ) (samples : ℕ) :
    optLen (load_data_body g now samples).timestamp = samples ∧
    optLen (load_data_body g now samples).ipAddress = samples ∧
    optLen (load_data_body g now samples).bytesSent = samples ∧
    optLen (load_data_body g now samples).bytesReceived = samples ∧
    optLen (load_data_body g now samples).requestCount = samples ∧
    optLen (load_data_body g now samples).port = samples ∧
    colOK (fun x => decide (0 ≤ x)) (load_data_body g now samples).bytesSent = true ∧
    colOK (fun x => decide (0 ≤ x)) (load_data_body g now samples).bytesReceived = true ∧
    colOK (fun x => decide (0 ≤ x)) (load_data_body g now samples).requestCount = true ∧
    colOK (fun a => decide (a ∈ ipPool)) (load_data_body g now samples).ipAddress = true ∧
    colOK (fun p => decide (p ∈ portPool)) (load_data_body g now samples).port = true := by
  have hip : ∀ k : Fin 4, ipPool.getD k.val "" ∈ ipPool := by decide
  have hport : ∀ k : Fin 4, portPool.getD k.val 0 ∈ portPool := by decide
  have hl : ∀ l : List ℤ, optLen (some l) = l.length := fun _ => rfl
  refine ⟨by simp only [load_data_body, optLen, List.length_map, List.length_range],
    by simp only [load_data_body, optLen, List.length_map, List.length_range],
    by simp only [load_data_body, optLen, List.length_map, List.length_range],
    by simp only [load_data_body, optLen, List.length_map, List.length_range],
    by simp only [load_data_body, optLen, List.length_map, List.length_range],
    by simp only [load_data_body, optLen, List.length_map, List.length_range],
    ?_, ?_, ?_, ?_, ?_⟩ <;>
    · simp only [load_data_body, colOK, List.all_eq_true, List.mem_map, List.mem_range,
        decide_eq_true_eq, forall_exists_index, and_imp]
      rintro x i _ rfl
      first
      | exact Int.floor_nonneg.mpr (le_of_lt (g.logSent_pos i))
      | exact Int.floor_nonneg.mpr (le_of_lt (g.logRecv_pos i))
      | exact Int.natCast_nonneg _
      | exact hip (g.ipIdx i)
      | exact hport (g.portIdx i)

/-- Claim C5: a successful scoring call leaves every base column (hence the
row count and row order) unchanged; the only columns it writes are
Anomaly_Score and Confidence, and both are populated with one value per
feature row. -/
theorem score_frame (scoreFn : Feat → ℚ) (data : DataFrame) (xs : List Feat) (c : ℚ)
    (hxs : getFeatures data = some xs) :
    (detect_anomalies scoreFn true true data c).timestamp = data.timestamp ∧
    (detect_anomalies scoreFn true true data c).ipAddress = data.ipAddress ∧
    (detect_anomalies scoreFn true true data c).bytesSent = data.bytesSent ∧
    (detect_anomalies scoreFn true true data c).bytesReceived = data.bytesReceived ∧
    (detect_anomalies scoreFn true true data c).requestCount = data.requestCount ∧
    (detect_anomalies scoreFn true true data c).port = data.port ∧
    (detect_anomalies scoreFn true true data c).anomalyScore
        = some (predictLabels scoreFn xs c) ∧
    (detect_anomalies scoreFn true true data c).confidence
        = some (decision_function scoreFn xs c) ∧
    (predictLabels scoreFn xs c).length = xs.length ∧
    (decision_function scoreFn xs c).length = xs.length := by
  rw [detect_success scoreFn data xs c hxs]
  refine ⟨rfl, rfl, rfl, rfl, rfl, rfl, rfl, rfl, ?_, ?_⟩ <;>
    simp [predictLabels, decision_function, score_samples]

/-- Witness for C5 at a concrete table. -/
theorem score_frame_witness :
    getFeatures sampleDF = some sampleFeats ∧
    (detect_anomalies (fun x => (x.1 : ℚ)) true true sampleDF (1 / 10)).bytesSent
        = sampleDF.bytesSent ∧
    (detect_anomalies (fun x => (x.1 : ℚ)) true true sampleDF (1 / 10)).anomalyScore
        = some (predictLabels (fun x => (x.1 : ℚ)) sampleFeats (1 / 10)) :=
  ⟨rfl, (score_frame (fun x => (x.1 : ℚ)) sampleDF sampleFeats (1 / 10) rfl).2.2.1,
    (score_frame (fun x => (x.1 : ℚ)) sampleDF sampleFeats (1 / 10) rfl).2.2.2.2.2.2.1⟩

/-- Claim C6: the scoring result does not depend on how the fitted trees are
distributed over compute units (`n_jobs=-1`, line 41), and two calls on the
same inputs agree: for any two chunkings of the same tree list, the parallel
forest scores — partial per-chunk aggregates combined and post-transformed —
give identical `detect_anomalies` results. -/
theorem score_parallel_invariant (f : ℚ → ℚ) (trees : List (Feat → ℚ))
    (chunks1 chunks2 : List (List (Feat → ℚ)))
    (h1 : chunks1.flatten = trees) (h2 : chunks2.flatten = trees)
    (fitOk dfOk : Bool) (data : DataFrame) (c : ℚ) :
    detect_anomalies (forestScorePar f chunks1) fitOk dfOk data c =
      detect_anomalies (forestScorePar f chunks2) fitOk dfOk data c := by
  have key : ∀ chunks : List (List (Feat → ℚ)), chunks.flatten = trees →
      forestScorePar f chunks = forestScore f trees := by
    intro chunks hch
    funext x
    unfold forestScorePar forestScore treeAgg
    rw [← hch, List.map_flatten, List.sum_flatten, List.map_map]
    rfl
  rw [key chunks1 h1, key chunks2 h2]

/-- Witness for C6: splitting two trees over two compute units gives the same
result as evaluating them on one. -/
theorem score_parallel_invariant_witness :
    ([[treeA], [treeB]] : List (List (Feat → ℚ))).flatten = [treeA, treeB] ∧
    ([[treeA, treeB]] : List (List (Feat → ℚ))).flatten = [treeA, treeB] ∧
    detect_anomalies (forestScorePar id [[treeA], [treeB]]) true true sampleDF (1 / 10) =
      detect_anomalies (forestScorePar id [[treeA, treeB]]) true true sampleDF (1 / 10) :=
  ⟨rfl, rfl,
    score_parallel_invariant id [treeA, treeB] [[treeA], [treeB]] [[treeA, treeB]]
      rfl rfl true true sampleDF (1 / 10)⟩

/-- Claim C7: after a successful scoring call the stored label agrees with the
sign of the stored decision score: a row is Anomalous (`-1`) exactly when its
Confidence is negative and Normal (`+1`) exactly when it is non-negative. -/
theorem labels_sign_consistent (scoreFn : Feat → ℚ) (data : DataFrame) (xs : List Feat)
    (c : ℚ) (hxs : getFeatures data = some xs) (i : ℕ) (hi : i < xs.length) :
    ∃ labels conf,
      (detect_anomalies scoreFn true true data c).anomalyScore = some labels ∧
      (detect_anomalies scoreFn true true data c).confidence = some conf ∧
      (labels.getD i 0 = -1 ↔ conf.getD i 0 < 0) ∧
      (labels.getD i 0 = 1 ↔ 0 ≤ conf.getD i 0) := by
  have hlen : i < (decision_function scoreFn xs c).length := by
    simpa [decision_function, score_samples] using hi
  have hlen2 : i < (predictLabels scoreFn xs c).length := by
    simpa [predictLabels, decision_function, score_samples] using hi
  refine ⟨predictLabels scoreFn xs c, decision_function scoreFn xs c,
    (detect_success scoreFn data xs c hxs ▸ rfl),
    (detect_success scoreFn data xs c hxs ▸ rfl), ?_, ?_⟩ <;>
  · rw [List.getD_eq_getElem _ _ hlen2, List.getD_eq_getElem _ _ hlen]
    unfold predictLabels
    rw [List.getElem_map]
    by_cases hd : (decision_function scoreFn xs c)[i] < 0
    · simp [hd, not_le.mpr hd]
    · simp [hd, not_lt.mp hd]

/-- Witness for C7 at a concrete table and row. -/
theorem labels_sign_consistent_witness :
    getFeatures sampleDF = some sampleFeats ∧ (0 : ℕ) < sampleFeats.length ∧
    (∃ labels conf,
      (detect_anomalies (fun x => (x.1 : ℚ)) true true sampleDF (1 / 10)).anomalyScore
          = some labels ∧
      (detect_anomalies (fun x => (x.1 : ℚ)) true true sampleDF (1 / 10)).confidence
          = some conf ∧
      (labels.getD 0 0 = -1 ↔ conf.getD 0 0 < 0) ∧
      (labels.getD 0 0 = 1 ↔ 0 ≤ conf.getD 0 0)) :=
  ⟨rfl, by decide,
    labels_sign_consistent (fun x => (x.1 : ℚ)) sampleDF sampleFeats (1 / 10) rfl 0 (by decide)⟩

/-- Claim C8: when synthetic-record construction fails, `load_data` catches
the error and returns a null table, and `main` skips rendering for that cycle
instead of crashing (lines 94-96). -/
theorem generation_failure_skips (g : NumpyStream) (now : ℤ) (fitOk dfOk : Bool)
    (scoreFn : Feat → ℚ) (samples : ℕ) (c : ℚ) :
    load_data g now false samples = none ∧
    mainCycle g now false fitOk dfOk scoreFn samples c = CycleView.skipped :=
  ⟨rfl, rfl⟩

/-- Claim C9: the Timestamp column starts at the generation moment `now` and
advances by exactly one minute (60 s) per record, so timestamps are strictly
increasing with fixed spacing. -/
theorem generate_timestamps (g : NumpyStream) (now : ℤ) (samples : ℕ) :
    (∀ i, i < samples → (tsCol (load_data_body g now samples)).getD i 0 = now + 60 * i) ∧
    (0 < samples → (tsCol (load_data_body g now samples)).getD 0 0 = now) ∧
    (∀ i, i + 1 < samples →
      (tsCol (load_data_body g now samples)).getD (i + 1) 0
        = (tsCol (load_data_body g now samples)).getD i 0 + 60) ∧
    (∀ i j, i < j → j < samples →
      (tsCol (load_data_body g now samples)).getD i 0
        < (tsCol (load_data_body g now samples)).getD j 0) := by
  have key : ∀ i, i < samples →
      (tsCol (load_data_body g now samples)).getD i 0 = now + 60 * i := by
    intro i hi
    have hlen : i < ((List.range samples).map fun (k : ℕ) => now + 60 * (k : ℤ)).length := by
      simp only [List.length_map, List.length_range]
      exact hi
    simp only [tsCol, load_data_body, Option.getD_some]
    rw [List.getD_eq_getElem _ _ hlen, List.getElem_map, List.getElem_range]
  refine ⟨key, ?_, ?_, ?_⟩
  · intro h
    rw [key 0 h]
    ring
  · intro i h
    rw [key (i + 1) h, key i (Nat.lt_of_succ_lt h)]
    push_cast
    ring
  · intro i j hij hj
    rw [key i (lt_trans hij hj), key j hj]
    have : (i : ℤ) < (j : ℤ) := by exact_mod_cast hij
    linarith

/-- Witness for C9 at a concrete stream, start time and size. -/
theorem generate_timestamps_witness :
    ((0 : ℕ) < 2 ∧ (tsCol (load_data_body constStream 500 2)).getD 0 0 = 500) ∧
    ((0 : ℕ) < 1 ∧ (1 : ℕ) < 2 ∧
      (tsCol (load_data_body constStream 500 2)).getD 0 0
        < (tsCol (load_data_body constStream 500 2)).getD 1 0) :=
  ⟨⟨by decide, (generate_timestamps constStream 500 2).2.1 (by decide)⟩,
    ⟨by decide, by decide,
      (generate_timestamps constStream 500 2).2.2.2 0 1 (by decide) (by decide)⟩⟩

/-- Claim C10: `detect_anomalies` mutates its argument in place and returns
the very same reference: the returned reference equals the argument reference,
reading the heap through the caller's original reference yields the scored
table with both result columns populated, and no other reference is
affected. -/
theorem score_in_place (scoreFn : Feat → ℚ) (heap : ℕ → DataFrame) (r : ℕ) (c : ℚ)
    (xs : List Feat) (hxs : getFeatures (heap r) = some xs) :
    (detect_anomalies_ref scoreFn true true heap r c).2 = r ∧
    (detect_anomalies_ref scoreFn true true heap r c).1 r =
      detect_anomalies scoreFn true true (heap r) c ∧
    ((detect_anomalies_ref scoreFn true true heap r c).1 r).anomalyScore =
      some (predictLabels scoreFn xs c) ∧
    ((detect_anomalies_ref scoreFn true true heap r c).1 r).confidence =
      some (decision_function scoreFn xs c) ∧
    (∀ r2, r2 ≠ r → (detect_anomalies_ref scoreFn true true heap r c).1 r2 = heap r2) := by
  refine ⟨rfl, ?_, ?_, ?_, ?_⟩
  · simp [detect_anomalies_ref]
  · simp [detect_anomalies_ref, detect_success scoreFn (heap r) xs c hxs]
  · simp [detect_anomalies_ref, detect_success scoreFn (heap r) xs c hxs]
  · intro r2 hr2
    simp [detect_anomalies_ref, Function.update_noteq hr2]

/-- Witness for C10 on a one-object heap. -/
theorem score_in_place_witness :
    getFeatures ((fun _ : ℕ => sampleDF) 0) = some sampleFeats ∧
    (detect_anomalies_ref (fun x => (x.1 : ℚ)) true true (fun _ => sampleDF) 0 (1 / 10)).2 = 0 :=
  ⟨rfl,
    (score_in_place (fun x => (x.1 : ℚ)) (fun _ => sampleDF) 0 (1 / 10) sampleFeats rfl).1⟩

end ThreatDetect
